/-
Formal model of the quilkin UDP reverse proxy's configuration layer:
endpoints grouped by locality (`src/endpoint/locality.rs`), the
control-plane resource applier (`src/config.rs`), and the proxy start-up
sequence (`src/cli/proxy.rs`).  Rust collections are modelled by their
mathematical contents: `BTreeSet<Endpoint>` as `Finset`, the
`HashMap<Option<Locality>, LocalityEndpoints>` inside `LocalitySet` as an
association list whose reachable values have pairwise-distinct keys.
-/
import Mathlib

namespace Quilkin

/-- The location of an endpoint: `Locality` in `src/endpoint/locality.rs`
(a region / zone / sub-zone triple of strings). -/
structure Locality where
  region : String
  zone : String
  sub_zone : String
  deriving DecidableEq, Repr

/-- An upstream target.  The full `Endpoint` type lives in
`src/endpoint.rs` (not part of this tree); per the spec it is a socket
address plus opaque metadata holding an optional token set, value-typed
and totally ordered.  Addresses are abstracted to their textual
`host:port` form. -/
structure Endpoint where
  address : String
  tokens : List String
  deriving DecidableEq, Repr

/-- A set of endpoints optionally grouped by a `Locality`
(`LocalityEndpoints` in `src/endpoint/locality.rs`); the Rust
`BTreeSet<Endpoint>` is modelled as a `Finset`. -/
structure LocalityEndpoints where
  locality : Option Locality
  endpoints : Finset Endpoint
  deriving DecidableEq

/-- Source `impl From<Vec<Endpoint>> for LocalityEndpoints`: collect the vector
into a set, no locality. -/
def LocalityEndpoints.ofEndpoints (es : List Endpoint) : LocalityEndpoints :=
  ⟨none, es.toFinset⟩

/-- Modelled from the spec: `From<SocketAddr> for Endpoint`
(`src/endpoint.rs` is not in this tree): an endpoint with that address
and empty metadata. -/
def Endpoint.ofAddr (a : String) : Endpoint :=
  ⟨a, []⟩

/-- Source `impl From<Vec<SocketAddr>> for LocalityEndpoints`
(`src/endpoint/locality.rs`): map each address to an endpoint and collect
into a set, no locality. -/
def LocalityEndpoints.ofAddrs (addrs : List String) : LocalityEndpoints :=
  ⟨none, (addrs.map Endpoint.ofAddr).toFinset⟩

/-- The `LocalitySet` of `src/endpoint/locality.rs`: a
`HashMap<Option<Locality>, LocalityEndpoints>`, modelled as an
association list of its entries. -/
structure LocalitySet where
  entries : List (Option Locality × LocalityEndpoints)
  deriving DecidableEq

/-- The empty `LocalitySet` (`Default`). -/
def LocalitySet.empty : LocalitySet := ⟨[]⟩

/-- Source `LocalitySet::insert`: `self.0.entry(key).or_default()` then
`entry.locality = locality.locality; entry.endpoints.append(...)`.
If the key is present the stored entry's locality field is overwritten
with the key and the incoming endpoints are unioned in; otherwise a fresh
entry is created from the default and mutated the same way. -/
def LocalitySet.insert (s : LocalitySet) (le : LocalityEndpoints) : LocalitySet :=
  if s.entries.any (fun e => decide (e.1 = le.locality)) then
    ⟨s.entries.map (fun e =>
      if e.1 = le.locality then (e.1, ⟨le.locality, e.2.endpoints ∪ le.endpoints⟩) else e)⟩
  else
    ⟨s.entries ++ [(le.locality, ⟨le.locality, le.endpoints⟩)]⟩

/-- Source `LocalitySet::new` = `from_iter`: start from the default (empty) map
and insert every group in order. -/
def LocalitySet.new (l : List LocalityEndpoints) : LocalitySet :=
  l.foldl LocalitySet.insert LocalitySet.empty

/-- Source `LocalitySet::remove`: drop the entry stored under `key`. -/
def LocalitySet.remove (s : LocalitySet) (key : Option Locality) : LocalitySet :=
  ⟨s.entries.filter (fun e => decide (e.1 ≠ key))⟩

/-- Source `LocalitySet::clear`: remove all localities. -/
def LocalitySet.clear (_s : LocalitySet) : LocalitySet :=
  ⟨[]⟩

/-- The value stored under a key, if any (`HashMap` lookup). -/
def LocalitySet.lookupLoc (s : LocalitySet) (key : Option Locality) :
    Option LocalityEndpoints :=
  (s.entries.find? (fun e => decide (e.1 = key))).map (·.2)

/-- How many entries the map holds under a given key. -/
def LocalitySet.countKey (s : LocalitySet) (key : Option Locality) : Nat :=
  (s.entries.filter (fun e => decide (e.1 = key))).length

/-- The `LocalitySet` representation invariant: at most one entry per
distinct optional-`Locality` key (the keys are pairwise distinct), and
every stored group's `locality` field equals the key it is stored
under. -/
def LocalitySet.WF (s : LocalitySet) : Prop :=
  s.entries.Pairwise (fun a b => a.1 ≠ b.1) ∧ ∀ e ∈ s.entries, e.2.locality = e.1

instance (s : LocalitySet) : Decidable s.WF := by
  unfold LocalitySet.WF
  infer_instance

/-- Validation errors produced while translating control-plane resources.
The variants `notFound` and `fieldInvalid` are the ones `src/config.rs`
constructs (`Error::NotFound`, `Error::FieldInvalid`); the error enum
itself lives outside this tree.  Modelled from the spec: `ValidationError`
also covers "filter config malformed" and "malformed endpoint". -/
inductive CreationError where
  | notFound (name : String)
  | fieldInvalid (field reason : String)
  | malformedConfig (reason : String)
  | malformedEndpoint (reason : String)
  deriving DecidableEq, Repr

/-- An opaque protobuf `Any` payload. -/
abbrev AnyProto := Nat

/-- An opaque JSON value produced by a filter factory. -/
abbrev JsonValue := Nat

/-- Modelled from the spec: a filter factory (the `FilterFactory` trait is
outside this tree).  It can re-encode a protobuf config as JSON and
validate a JSON config at chain-construction time; either step may fail
with a validation error. -/
structure FilterFactory where
  encodeConfigToJson : AnyProto → Except CreationError JsonValue
  validateConfig : Option JsonValue → Except CreationError Unit

/-- Modelled from the spec: the process-wide filter registry, a map from
filter name to factory (`FilterRegistry` is outside this tree). -/
abbrev FilterRegistry := List (String × FilterFactory)

/-- Source `FilterRegistry::get_factory`: look a factory up by name. -/
def FilterRegistry.getFactory (reg : FilterRegistry) (name : String) :
    Option FilterFactory :=
  (reg.find? (fun e => decide (e.1 = name))).map (·.2)

/-- The `config_type` field of an xDS listener filter: either an inline
`TypedConfig` or a `ConfigDiscovery` reference. -/
inductive XdsConfigType where
  | typedConfig (cfg : AnyProto)
  | configDiscovery
  deriving DecidableEq, Repr

/-- An xDS `listener::v3::Filter`: a name plus an optional config. -/
structure XdsFilter where
  name : String
  configType : Option XdsConfigType
  deriving DecidableEq, Repr

/-- An xDS `listener::v3::FilterChain`. -/
structure XdsFilterChain where
  filters : List XdsFilter
  deriving DecidableEq, Repr

/-- An xDS `listener::v3::Listener`: its list of filter chains. -/
structure XdsListener where
  filterChains : List XdsFilterChain
  deriving DecidableEq, Repr

/-- The `config::Filter` of `src/config.rs`: the proxy's own filter
description, a name plus optional JSON config. -/
structure Filter where
  name : String
  config : Option JsonValue
  deriving DecidableEq, Repr

/-- Left-to-right collection of fallible results, mirroring
`.map(try_from).collect::<Result<Vec<_>, _>>()`: the first error wins. -/
def collectResults {α β ε : Type} (f : α → Except ε β) : List α → Except ε (List β)
  | [] => .ok []
  | x :: xs =>
    match f x with
    | .error e => .error e
    | .ok y =>
      match collectResults f xs with
      | .error e => .error e
      | .ok ys => .ok (y :: ys)

/-- Source `impl TryFrom<listener::v3::Filter> for Filter` (`src/config.rs`):
a `ConfigDiscovery` config is rejected as field-invalid; a `TypedConfig`
is re-encoded by the factory looked up by name (`NotFound` if absent); a
filter with no config is accepted without consulting the registry. -/
def Filter.tryFromXds (reg : FilterRegistry) (f : XdsFilter) :
    Except CreationError Filter :=
  match f.configType with
  | some (.typedConfig any) =>
    match reg.getFactory f.name with
    | none => .error (.notFound f.name)
    | some factory =>
      match factory.encodeConfigToJson any with
      | .error e => .error e
      | .ok j => .ok ⟨f.name, some j⟩
  | some .configDiscovery =>
    .error (.fieldInvalid "config_type" "ConfigDiscovery is currently unsupported")
  | none => .ok ⟨f.name, none⟩

/-- The filter list of a listener's first filter chain:
`listener.filter_chains.get(0).map(|chain| chain.filters).unwrap_or_default()`
in `Config::apply`. -/
def listenerChainFilters (l : XdsListener) : List XdsFilter :=
  (l.filterChains.head?.map (·.filters)).getD []

/-- An ordered filter chain, identified by its filter list. -/
abbrev FilterChain := List Filter

/-- Modelled from the spec: `FilterChain::try_from(Vec<Filter>)`
(`src/filters/chain.rs` is outside this tree): each filter's factory is
looked up by name — unknown names fail with "not found" — and the factory
validates the filter's config at chain-construction time. -/
def FilterChain.tryCreate (reg : FilterRegistry) (fs : List Filter) :
    Except CreationError FilterChain :=
  collectResults (fun f =>
    match reg.getFactory f.name with
    | none => .error (.notFound f.name)
    | some factory =>
      match factory.validateConfig f.config with
      | .error e => .error e
      | .ok _ => .ok f) fs

/-- Modelled from the spec: a named cluster of locality-grouped endpoints
(`src/cluster.rs` is outside this tree). -/
structure Cluster where
  name : String
  localities : LocalitySet
  deriving DecidableEq

/-- Modelled from the spec: `cluster.endpoints().count()` — the total
number of endpoints across the cluster's localities. -/
def Cluster.endpointsCount (c : Cluster) : Nat :=
  (c.localities.entries.map (fun e => e.2.endpoints.card)).sum

/-- Modelled from the spec: the map from cluster name to cluster, with the
default cluster (empty name) always present (`src/cluster.rs` is outside
this tree). -/
structure ClusterMap where
  defaultCluster : Cluster
  rest : List (String × Cluster)
  deriving DecidableEq

/-- The default `ClusterMap`: an empty default cluster and nothing else. -/
def ClusterMap.empty : ClusterMap :=
  ⟨⟨"", LocalitySet.empty⟩, []⟩

/-- Modelled from the spec: `ClusterMap::insert` replaces the cluster with
the same name, the empty name identifying the default cluster. -/
def ClusterMap.insert (m : ClusterMap) (c : Cluster) : ClusterMap :=
  if c.name = "" then { m with defaultCluster := c }
  else if m.rest.any (fun e => decide (e.1 = c.name)) then
    { m with rest := m.rest.map (fun e => if e.1 = c.name then (e.1, c) else e) }
  else { m with rest := m.rest ++ [(c.name, c)] }

/-- Modelled from the spec: `clusters.endpoints().count()` across all
clusters and localities. -/
def ClusterMap.endpointsCount (m : ClusterMap) : Nat :=
  m.defaultCluster.endpointsCount + (m.rest.map (fun e => e.2.endpointsCount)).sum

/-- Modelled from the spec: `ClusterMap::default_cluster_mut` used under
`Slot::modify` — edit the default cluster in place. -/
def ClusterMap.defaultClusterMut (m : ClusterMap) (f : Cluster → Cluster) : ClusterMap :=
  { m with defaultCluster := f m.defaultCluster }

/-- An xDS `LbEndpoint`, abstracted to whether it translates to a valid
`Endpoint` or is malformed. -/
inductive LbEndpoint where
  | valid (e : Endpoint)
  | malformed
  deriving DecidableEq

/-- Translating one `LbEndpoint` (the `TryFrom<LbEndpoint> for Endpoint`
conversion lives in `src/endpoint.rs`, outside this tree; modelled from
the spec: a malformed endpoint fails translation). -/
def LbEndpoint.tryIntoEndpoint : LbEndpoint → Except CreationError Endpoint
  | .valid e => .ok e
  | .malformed => .error (.malformedEndpoint "invalid endpoint address")

/-- An xDS `LocalityLbEndpoints` group. -/
structure LocalityLbEndpoints where
  locality : Option Locality
  lbEndpoints : List LbEndpoint
  deriving DecidableEq

/-- An xDS `ClusterLoadAssignment`. -/
structure ClusterLoadAssignment where
  clusterName : String
  endpoints : List LocalityLbEndpoints
  deriving DecidableEq

/-- Source `impl TryFrom<LocalityLbEndpoints> for LocalityEndpoints`
(`src/endpoint/locality.rs`): translate every lb-endpoint, collecting into
a set, and carry the locality over; the first failure propagates. -/
def LocalityEndpoints.tryFromLb (v : LocalityLbEndpoints) :
    Except CreationError LocalityEndpoints :=
  match collectResults LbEndpoint.tryIntoEndpoint v.lbEndpoints with
  | .error e => .error e
  | .ok es => .ok ⟨v.locality, es.toFinset⟩

/-- Modelled from the spec: `Cluster::try_from(ClusterLoadAssignment)`
(`src/cluster.rs` is outside this tree): translate each locality group —
a malformed endpoint fails the whole translation — and assemble the
cluster's locality set. -/
def Cluster.tryFromCLA (cla : ClusterLoadAssignment) : Except CreationError Cluster :=
  match collectResults LocalityEndpoints.tryFromLb cla.endpoints with
  | .error e => .error e
  | .ok les => .ok ⟨cla.clusterName, LocalitySet.new les⟩

/-- An xDS `cluster::v3::Cluster` resource: its optional embedded load
assignment (the only part `Config::apply` reads). -/
structure XdsCluster where
  loadAssignment : Option ClusterLoadAssignment
  deriving DecidableEq

/-- The three resource variants `Config::apply` accepts. -/
inductive Resource where
  | endpoint (cla : ClusterLoadAssignment)
  | listener (l : XdsListener)
  | cluster (c : XdsCluster)

/-- The two configuration slots `Config::apply` touches. -/
structure ConfigState where
  clusters : ClusterMap
  filters : FilterChain
  deriving DecidableEq

/-- The observable outcome of one `Config::apply` call: success, an error
returned to the caller, or a panic (`unwrap` on an error). -/
inductive ApplyResult where
  | ok
  | err (e : CreationError)
  | panicked
  deriving DecidableEq, Repr

/-- Whether an `ApplyResult` is a `NotFound` validation error. -/
def ApplyResult.isNotFoundErr : ApplyResult → Bool
  | .err (.notFound _) => true
  | _ => false

/-- The `apply_cluster` closure inside `Config::apply` (`src/config.rs`):
a cluster with zero endpoints is ignored; otherwise it is inserted into
the clusters slot (replacing by name). -/
def Config.applyCluster (st : ConfigState) (c : Cluster) : ConfigState :=
  if c.endpointsCount = 0 then st
  else { st with clusters := st.clusters.insert c }

/-- Source `Config::apply` (`src/config.rs`).  `Endpoint`: translate the load
assignment — the source calls `.unwrap()` on the result, so a failed
translation panics — then run `apply_cluster`.  `Listener`: translate each
filter of the first chain (first error propagates), build the chain, and
store it into the filters slot.  `Cluster`: translate the embedded load
assignment if any, propagating errors, then run `apply_cluster`. -/
def Config.apply (reg : FilterRegistry) (st : ConfigState) (r : Resource) :
    ApplyResult × ConfigState :=
  match r with
  | .endpoint cla =>
    match Cluster.tryFromCLA cla with
    | .error _ => (.panicked, st)
    | .ok c => (.ok, Config.applyCluster st c)
  | .listener l =>
    match collectResults (Filter.tryFromXds reg) (listenerChainFilters l) with
    | .error e => (.err e, st)
    | .ok cfilters =>
      match FilterChain.tryCreate reg cfilters with
      | .error e => (.err e, st)
      | .ok chain => (.ok, { st with filters := chain })
  | .cluster c =>
    match c.loadAssignment with
    | none => (.ok, st)
    | some cla =>
      match Cluster.tryFromCLA cla with
      | .error e => (.err e, st)
      | .ok cl => (.ok, Config.applyCluster st cl)

/-- A sample endpoint used by concrete witnesses. -/
def epA : Endpoint := ⟨"10.0.0.1:81", []⟩

/-- A sample endpoint used by concrete witnesses. -/
def epB : Endpoint := ⟨"10.0.0.2:82", []⟩

/-- A sample endpoint used by concrete witnesses. -/
def epC : Endpoint := ⟨"10.0.0.3:83", []⟩

/-- A sample well-formed `LocalitySet` holding `epA` under the no-locality
key, used by concrete witnesses. -/
def sampleSet : LocalitySet := ⟨[(none, ⟨none, {epA}⟩)]⟩

/-- A factory that accepts any config, used by concrete witnesses. -/
def okFactory : FilterFactory :=
  ⟨fun a => .ok a, fun _ => .ok ()⟩

/-- A one-entry registry holding only the filter name `known`, used by
concrete witnesses. -/
def reg1 : FilterRegistry := [("known", okFactory)]

/-- A configuration state with empty clusters and an empty filter chain. -/
def st0 : ConfigState := ⟨ClusterMap.empty, []⟩

/-- A configuration state whose filter slot holds a previously configured
chain, used to observe whether `apply` mutates the slot. -/
def st1 : ConfigState := ⟨ClusterMap.empty, [⟨"old", none⟩]⟩

/-- A listener whose first chain names an unregistered filter that uses
`ConfigDiscovery`. -/
def cdListener : XdsListener := ⟨[⟨[⟨"unknown", some .configDiscovery⟩]⟩]⟩

/-- A listener whose first chain names an unregistered filter with no
inline config. -/
def unknownListener : XdsListener := ⟨[⟨[⟨"unknown", none⟩]⟩]⟩

/-- A cluster load assignment containing a malformed endpoint. -/
def malformedCLA : ClusterLoadAssignment := ⟨"cluster-a", [⟨none, [.malformed]⟩]⟩

/-- A cluster load assignment with no endpoints at all. -/
def emptyCLA : ClusterLoadAssignment := ⟨"cluster-a", []⟩

/-- The `Proxy` CLI arguments `run` reads (`src/cli/proxy.rs`):
management-server endpoints (as opaque URLs), the listening port, and the
static upstream socket addresses (the repeatable `to` option; `to` is a
reserved word here, hence the longer field name); the mmdb source is out
of scope. -/
structure Proxy where
  managementServer : List String
  port : Nat
  toAddresses : List String
  deriving DecidableEq, Repr

/-- The kinds of error `Proxy::run` can return: the fail-fast
configuration error ("requires at least one `to` address or
`management_server` endpoint"), an xDS connect/stream failure, and a
socket bind failure inside `run_recv_from`. -/
inductive RunError where
  | config
  | controlPlane
  | socket
  deriving DecidableEq, Repr

/-- Observable start-up milestones of `Proxy::run`, recorded in the order
the source reaches them: `SessionMap::new`, the xDS client connecting,
and the worker pool being spawned. -/
inductive RunEvent where
  | sessionMapCreated
  | xdsConnected
  | workersSpawned
  deriving DecidableEq, Repr

/-- One `DownstreamReceiveWorkerConfig` handed to a spawned worker
(`src/cli/proxy.rs`, `run_recv_from`): the worker id, the socket it
received (identified by the allocation index of the `bind` call that
created it plus the port it is bound to), and the shared config,
session-map and shutdown handles, modelled as opaque tokens copied from
`run_recv_from`'s arguments. -/
structure DownstreamReceiveWorkerConfig where
  workerId : Nat
  socketId : Nat
  socketPort : Nat
  configRef : Nat
  sessionsRef : Nat
  shutdownRef : Nat
  deriving DecidableEq, Repr

/-- Source `Proxy::run_recv_from`: the loop body evaluates
`Arc::new(self.bind(self.port)?)` anew for every `worker_id`, so each
iteration's `bind` allocates a fresh socket (modelled by the iteration
index as its allocation id) bound to the configured port; every worker
then receives that socket together with clones of the shared config,
session map and shutdown receiver.  Socket binding itself
(`net::socket_with_reuse`, outside this tree) is modelled from the spec
as an allocation that succeeds with address/port reuse. -/
def runRecvFrom (p : Proxy) (configRef sessionsRef shutdownRef : Nat)
    (numWorkers : Nat) : List DownstreamReceiveWorkerConfig :=
  (List.range numWorkers).map
    (fun i => ⟨i, i, p.port, configRef, sessionsRef, shutdownRef⟩)

/-- The `clusters.modify` that `Proxy::run` performs when command-line
`--to` targets are present: replace the default cluster's localities with
`vec![self.to.clone().into()].into()`, a locality set holding the single
no-locality group built from those addresses. -/
def applyToTargets (p : Proxy) (m : ClusterMap) : ClusterMap :=
  if p.toAddresses.isEmpty then m
  else m.defaultClusterMut (fun c =>
    { c with localities := LocalitySet.new [LocalityEndpoints.ofAddrs p.toAddresses] })

/-- Source `Proxy::run` (`src/cli/proxy.rs`), modelled up to its await on the
shutdown signal.  In source order: apply the command-line targets; fail
fast with the configuration error when the clusters hold zero endpoints
and no management server is configured; create the session map; connect
the xDS client when management servers are configured (`connectOk` models
whether connecting succeeds; a failure surfaces before workers spawn);
bind and spawn the worker pool (`bindOk` models whether binding
succeeds).  Returns the result, the final clusters value, and the trace
of start-up events reached. -/
def Proxy.run (p : Proxy) (m : ClusterMap) (connectOk bindOk : Bool) :
    Except RunError Unit × ClusterMap × List RunEvent :=
  let m1 := applyToTargets p m
  if m1.endpointsCount = 0 ∧ p.managementServer.isEmpty then
    (.error .config, m1, [])
  else if p.managementServer.isEmpty = false ∧ connectOk = false then
    (.error .controlPlane, m1, [.sessionMapCreated])
  else
    let ev2 : List RunEvent :=
      if p.managementServer.isEmpty then [.sessionMapCreated]
      else [.sessionMapCreated, .xdsConnected]
    if bindOk then (.ok (), m1, ev2 ++ [.workersSpawned])
    else (.error .socket, m1, ev2)

/-- A cluster map whose default cluster holds an endpoint under an
explicit locality, used by witnesses to observe replacement. -/
def mPrev : ClusterMap :=
  ⟨⟨"", ⟨[(some ⟨"us", "a", ""⟩, ⟨some ⟨"us", "a", ""⟩, {epA}⟩)]⟩⟩, []⟩

/-- A parsed YAML/JSON value: the input `Config::from_reader` hands to
serde's `Deserialize` implementations.  Reading bytes into this tree is
the YAML parser's job, which the spec puts out of scope. -/
inductive JVal where
  | null
  | bool (b : Bool)
  | num (n : Int)
  | str (s : String)
  | arr (xs : List JVal)
  | obj (fields : List (String × JVal))

/-- The declared top-level fields of `Config` (`src/config.rs`):
`clusters`, `filters`, `id`, `version`, under
`#[serde(deny_unknown_fields)]`. -/
def topLevelSchema : List String := ["clusters", "filters", "id", "version"]

/-- The declared fields of `config::Filter` (`src/config.rs`): `name` and
`config`, under `#[serde(deny_unknown_fields)]`. -/
def filterSchema : List String := ["name", "config"]

/-- The `version` enum of `src/config.rs`, whose single variant is
serde-renamed to `v1alpha1`. -/
inductive Version where
  | v1alpha1
  deriving DecidableEq, Repr

/-- A `config::Filter` as read from the configuration file; unlike the
applier-side `Filter`, whose validated config is opaque, this one keeps
the parsed YAML config value. -/
structure FilterFile where
  name : String
  config : Option JVal

/-- The serde-derived field loop for `config::Filter` under
`deny_unknown_fields`: `name` is a required string, `config` is any
optional value, a repeated field is a duplicate-field error, and any
other field name is an unknown-field error. -/
def readFilterFields : List (String × JVal) → Option String → Option (Option JVal) →
    Except String FilterFile
  | [], nameAcc, cfgAcc =>
    match nameAcc with
    | none => .error "missing field name"
    | some n => .ok ⟨n, cfgAcc.getD none⟩
  | (k, v) :: rest, nameAcc, cfgAcc =>
    if k = "name" then
      match nameAcc with
      | some _ => .error "duplicate field name"
      | none =>
        match v with
        | .str s => readFilterFields rest (some s) cfgAcc
        | _ => .error "invalid type for field name"
    else if k = "config" then
      match cfgAcc with
      | some _ => .error "duplicate field config"
      | none => readFilterFields rest nameAcc (some (some v))
    else .error ("unknown field " ++ k)

/-- Deserializing one `config::Filter`: a YAML mapping processed by
`readFilterFields`. -/
def FilterFile.deserialize : JVal → Except String FilterFile
  | .obj fs => readFilterFields fs none none
  | _ => .error "invalid type: expected a mapping for a filter"

/-- Modelled from the spec: the filters slot deserializes from the
schema's sequence of filter entries (`FilterChain`'s `Deserialize` lives
in `src/filters/chain.rs`, outside this tree); each entry is read by the
`config::Filter` rules from `src/config.rs`. -/
def deserializeFilterList : JVal → Except String (List FilterFile)
  | .arr xs => collectResults FilterFile.deserialize xs
  | _ => .error "invalid type: expected a sequence of filters"

/-- The serde-derived field loop for `Locality`
(`src/endpoint/locality.rs`): `region`, `zone` and `sub_zone` are strings
defaulting to empty; the derive has no `deny_unknown_fields`, so unknown
fields are ignored. -/
def readLocalityFields : List (String × JVal) → Option String → Option String →
    Option String → Except String Locality
  | [], r, z, s => .ok ⟨r.getD "", z.getD "", s.getD ""⟩
  | (k, v) :: rest, r, z, s =>
    if k = "region" then
      match r, v with
      | some _, _ => .error "duplicate field region"
      | none, .str x => readLocalityFields rest (some x) z s
      | none, _ => .error "invalid type for field region"
    else if k = "zone" then
      match z, v with
      | some _, _ => .error "duplicate field zone"
      | none, .str x => readLocalityFields rest r (some x) s
      | none, _ => .error "invalid type for field zone"
    else if k = "sub_zone" then
      match s, v with
      | some _, _ => .error "duplicate field sub_zone"
      | none, .str x => readLocalityFields rest r z (some x)
      | none, _ => .error "invalid type for field sub_zone"
    else readLocalityFields rest r z s

/-- Deserializing a `Locality` from a YAML mapping. -/
def Locality.deserialize : JVal → Except String Locality
  | .obj fs => readLocalityFields fs none none none
  | _ => .error "invalid type: expected a mapping for a locality"

/-- Modelled from the spec: extract the token list from an endpoint's
`metadata.quilkin.dev.tokens` entry of the schema (absent pieces yield no
tokens; the endpoint metadata type lives outside this tree). -/
def parseTokens (v : JVal) : Except String (List String) :=
  match v with
  | .obj fs =>
    match fs.find? (fun e => decide (e.1 = "quilkin.dev")) with
    | none => .ok []
    | some (_, .obj fs2) =>
      match fs2.find? (fun e => decide (e.1 = "tokens")) with
      | none => .ok []
      | some (_, .arr xs) =>
        collectResults (fun x =>
          match x with
          | JVal.str s => .ok s
          | _ => (.error "invalid type for token" : Except String String)) xs
      | some _ => .error "invalid type for field tokens"
    | some _ => .error "invalid type for field quilkin.dev"
  | _ => .error "invalid type for field metadata"

/-- Modelled from the spec's schema (and the repo's own unknown-field
test): an endpoint entry has a required `address` string and optional
`metadata`, and rejects unknown fields (`src/endpoint.rs` is outside this
tree). -/
def readEndpointFields : List (String × JVal) → Option String → Option (List String) →
    Except String Endpoint
  | [], addrAcc, tokAcc =>
    match addrAcc with
    | none => .error "missing field address"
    | some a => .ok ⟨a, tokAcc.getD []⟩
  | (k, v) :: rest, addrAcc, tokAcc =>
    if k = "address" then
      match addrAcc, v with
      | some _, _ => .error "duplicate field address"
      | none, .str a => readEndpointFields rest (some a) tokAcc
      | none, _ => .error "invalid type for field address"
    else if k = "metadata" then
      match tokAcc with
      | some _ => .error "duplicate field metadata"
      | none =>
        match parseTokens v with
        | .error e => .error e
        | .ok ts => readEndpointFields rest addrAcc (some ts)
    else .error ("unknown field " ++ k)

/-- Deserializing one endpoint entry. -/
def Endpoint.deserialize : JVal → Except String Endpoint
  | .obj fs => readEndpointFields fs none none
  | _ => .error "invalid type: expected a mapping for an endpoint"

/-- The serde-derived field loop for `LocalityEndpoints`
(`src/endpoint/locality.rs`): an optional `locality` (an explicit null
reads as none), a required `endpoints` sequence collected into a set; the
derive has no `deny_unknown_fields`, so unknown fields are ignored. -/
def readLocEpFields : List (String × JVal) → Option (Option Locality) →
    Option (List Endpoint) → Except String LocalityEndpoints
  | [], locAcc, epAcc =>
    match epAcc with
    | none => .error "missing field endpoints"
    | some es => .ok ⟨locAcc.getD none, es.toFinset⟩
  | (k, v) :: rest, locAcc, epAcc =>
    if k = "locality" then
      match locAcc with
      | some _ => .error "duplicate field locality"
      | none =>
        match v with
        | .null => readLocEpFields rest (some none) epAcc
        | _ =>
          match Locality.deserialize v with
          | .error e => .error e
          | .ok loc => readLocEpFields rest (some (some loc)) epAcc
    else if k = "endpoints" then
      match epAcc with
      | some _ => .error "duplicate field endpoints"
      | none =>
        match v with
        | .arr xs =>
          match collectResults Endpoint.deserialize xs with
          | .error e => .error e
          | .ok es => readLocEpFields rest locAcc (some es)
        | _ => .error "invalid type for field endpoints"
    else readLocEpFields rest locAcc epAcc

/-- Deserializing one locality-endpoints entry. -/
def LocalityEndpoints.deserialize : JVal → Except String LocalityEndpoints
  | .obj fs => readLocEpFields fs none none
  | _ => .error "invalid type: expected a mapping for a locality group"

/-- Modelled from the spec's schema: a cluster value holds a `localities`
sequence (absent reads as empty); other fields are ignored as the cluster
type's derive is outside this tree. -/
def readClusterFields (name : String) : List (String × JVal) →
    Option (List LocalityEndpoints) → Except String Cluster
  | [], locAcc => .ok ⟨name, LocalitySet.new (locAcc.getD [])⟩
  | (k, v) :: rest, locAcc =>
    if k = "localities" then
      match locAcc with
      | some _ => .error "duplicate field localities"
      | none =>
        match v with
        | .arr xs =>
          match collectResults LocalityEndpoints.deserialize xs with
          | .error e => .error e
          | .ok les => readClusterFields name rest (some les)
        | _ => .error "invalid type for field localities"
    else readClusterFields name rest locAcc

/-- Modelled from the spec's schema: the clusters slot deserializes from
a mapping of cluster name to cluster value, inserted in order
(`ClusterMap`'s `Deserialize` lives in `src/cluster.rs`, outside this
tree). -/
def readClusters : List (String × JVal) → ClusterMap → Except String ClusterMap
  | [], acc => .ok acc
  | (name, v) :: rest, acc =>
    match v with
    | .obj cfs =>
      match readClusterFields name cfs none with
      | .error e => .error e
      | .ok c => readClusters rest (acc.insert c)
    | _ => .error "invalid type: expected a mapping for a cluster"

/-- Deserializing the clusters slot. -/
def ClusterMapFile.deserialize : JVal → Except String ClusterMap
  | .obj fs => readClusters fs ClusterMap.empty
  | _ => .error "invalid type: expected a mapping of clusters"

/-- Deserializing the `version` field: only the renamed variant
`v1alpha1` is accepted. -/
def Version.deserialize : JVal → Except String Version
  | .str "v1alpha1" => .ok .v1alpha1
  | _ => .error "unknown variant of version"

/-- The result of deserializing a configuration file: the values the four
slots of `Config` are initialized with. -/
structure ConfigFile where
  clusters : ClusterMap
  filters : List FilterFile
  id : String
  version : Version

/-- The serde-derived field loop for `Config` (`src/config.rs`) under
`deny_unknown_fields`: the four declared fields each parse their value
(each slot having a serde default — `default_proxy_id` is abstracted to a
fixed placeholder string), a repeated field is a duplicate-field error,
and any other field name is an unknown-field error. -/
def readConfigFields : List (String × JVal) → Option ClusterMap →
    Option (List FilterFile) → Option String → Option Version →
    Except String ConfigFile
  | [], clAcc, flAcc, idAcc, vAcc =>
    .ok ⟨clAcc.getD ClusterMap.empty, flAcc.getD [], idAcc.getD "default-proxy-id",
      vAcc.getD .v1alpha1⟩
  | (k, v) :: rest, clAcc, flAcc, idAcc, vAcc =>
    if k = "clusters" then
      match clAcc with
      | some _ => .error "duplicate field clusters"
      | none =>
        match ClusterMapFile.deserialize v with
        | .error e => .error e
        | .ok c => readConfigFields rest (some c) flAcc idAcc vAcc
    else if k = "filters" then
      match flAcc with
      | some _ => .error "duplicate field filters"
      | none =>
        match deserializeFilterList v with
        | .error e => .error e
        | .ok l => readConfigFields rest clAcc (some l) idAcc vAcc
    else if k = "id" then
      match idAcc, v with
      | some _, _ => .error "duplicate field id"
      | none, .str s => readConfigFields rest clAcc flAcc (some s) vAcc
      | none, _ => .error "invalid type for field id"
    else if k = "version" then
      match vAcc with
      | some _ => .error "duplicate field version"
      | none =>
        match Version.deserialize v with
        | .error e => .error e
        | .ok ver => readConfigFields rest clAcc flAcc idAcc (some ver)
    else .error ("unknown field " ++ k)

/-- Source `Config::from_reader` (`src/config.rs`), applied to the parsed YAML
value: deserialize `Config` from a top-level mapping. -/
def Config.fromReader : JVal → Except String ConfigFile
  | .obj fs => readConfigFields fs none none none none
  | _ => .error "invalid type: expected a mapping"

lemma LocalitySet.empty_WF : LocalitySet.empty.WF := by
  constructor
  · exact List.Pairwise.nil
  · intro e he
    simp [LocalitySet.empty] at he

lemma LocalitySet.insert_WF (s : LocalitySet) (le : LocalityEndpoints)
    (h : s.WF) : (s.insert le).WF := by
  obtain ⟨hpw, hloc⟩ := h
  unfold LocalitySet.insert
  by_cases hany : (s.entries.any (fun e => decide (e.1 = le.locality))) = true
  · rw [if_pos hany]
    have hkey : ∀ a : Option Locality × LocalityEndpoints,
        ((fun e => if e.1 = le.locality then
          (e.1, (⟨le.locality, e.2.endpoints ∪ le.endpoints⟩ : LocalityEndpoints))
          else e) a).1 = a.1 := by
      intro a
      by_cases h : a.1 = le.locality <;> simp [h]
    constructor
    · refine List.Pairwise.map _ ?_ hpw
      intro a b hab
      rw [hkey a, hkey b]
      exact hab
    · intro e he
      rcases List.mem_map.mp he with ⟨a, ha, rfl⟩
      by_cases hk : a.1 = le.locality
      · simp [hk]
      · simp only [hk, if_false, ite_false]
        exact hloc a ha
  · rw [if_neg hany]
    constructor
    · rw [List.pairwise_append]
      refine ⟨hpw, List.pairwise_singleton _ _, ?_⟩
      intro a ha b hb
      simp only [List.mem_singleton] at hb
      subst hb
      simp only [List.any_eq_true, not_exists, not_and] at hany
      intro hcontra
      have := hany a ha
      simp [hcontra] at this
    · intro e he
      rcases List.mem_append.mp he with h1 | h2
      · exact hloc e h1
      · simp only [List.mem_singleton] at h2
        subst h2
        rfl

lemma LocalitySet.new_WF_aux (l : List LocalityEndpoints) (s : LocalitySet)
    (h : s.WF) : (l.foldl LocalitySet.insert s).WF := by
  induction l generalizing s with
  | nil => exact h
  | cons x xs ih =>
      exact ih _ (s.insert_WF x h)

lemma LocalitySet.remove_WF (s : LocalitySet) (key : Option Locality)
    (h : s.WF) : (s.remove key).WF := by
  obtain ⟨hpw, hloc⟩ := h
  constructor
  · exact hpw.sublist (List.filter_sublist _)
  · intro e he
    exact hloc e (List.mem_of_mem_filter he)

lemma find?_map_pred {α : Type} (l : List α) (f : α → α) (p : α → Bool)
    (h : ∀ a, p (f a) = p a) : (l.map f).find? p = (l.find? p).map f := by
  induction l with
  | nil => rfl
  | cons a l ih =>
      cases hpa : p a with
      | true =>
          rw [List.map_cons, List.find?_cons_of_pos _ ((h a).trans hpa),
            List.find?_cons_of_pos _ hpa]
          rfl
      | false =>
          rw [List.map_cons, List.find?_cons_of_neg _ (by simp [h a, hpa]),
            List.find?_cons_of_neg _ (by simp [hpa]), ih]

lemma find?_append_none {α : Type} (l₁ l₂ : List α) (p : α → Bool)
    (h : l₁.find? p = none) : (l₁ ++ l₂).find? p = l₂.find? p := by
  induction l₁ with
  | nil => rfl
  | cons a l ih =>
      rw [List.find?_eq_none] at h
      have hpa : ¬ p a = true := h a (List.mem_cons_self a l)
      rw [List.cons_append, List.find?_cons_of_neg _ hpa]
      exact ih (List.find?_eq_none.mpr (fun x hx => h x (List.mem_cons_of_mem a hx)))

/-- After `insert le` the entry under key `le.locality` holds the union of
the endpoints previously stored there (or the default empty set) with
`le.endpoints`, and its locality field equals the key. -/
lemma LocalitySet.lookupLoc_insert_self (s : LocalitySet) (le : LocalityEndpoints) :
    (s.insert le).lookupLoc le.locality =
      some ⟨le.locality, ((s.lookupLoc le.locality).elim ∅ (·.endpoints)) ∪ le.endpoints⟩ := by
  unfold LocalitySet.insert LocalitySet.lookupLoc
  by_cases hany : (s.entries.any (fun e => decide (e.1 = le.locality))) = true
  · rw [if_pos hany]
    have hkeys : ∀ a : Option Locality × LocalityEndpoints,
        (fun e : Option Locality × LocalityEndpoints => decide (e.1 = le.locality))
          ((fun e => if e.1 = le.locality then
            (e.1, (⟨le.locality, e.2.endpoints ∪ le.endpoints⟩ : LocalityEndpoints))
            else e) a)
        = decide (a.1 = le.locality) := by
      intro a
      by_cases h : a.1 = le.locality <;> simp [h]
    rw [find?_map_pred _ _ _ hkeys]
    obtain ⟨e0, he0⟩ : ∃ e0, s.entries.find?
        (fun e => decide (e.1 = le.locality)) = some e0 := by
      rw [← Option.isSome_iff_exists, List.find?_isSome]
      exact List.any_eq_true.mp hany
    rw [he0]
    have hk : e0.1 = le.locality := by
      have := List.find?_some he0
      simpa using this
    simp [hk]
  · rw [if_neg hany]
    have hnone : s.entries.find? (fun e => decide (e.1 = le.locality)) = none := by
      rw [List.find?_eq_none]
      intro x hx hpx
      exact hany (List.any_eq_true.mpr ⟨x, hx, hpx⟩)
    rw [find?_append_none _ _ _ hnone, hnone]
    rw [List.find?_cons_of_pos _ (by simp)]
    simp

lemma LocalitySet.countKey_insert_pos (s : LocalitySet) (le : LocalityEndpoints) :
    1 ≤ (s.insert le).countKey le.locality := by
  have h := s.lookupLoc_insert_self le
  unfold LocalitySet.lookupLoc at h
  obtain ⟨e0, he0⟩ : ∃ e0, (s.insert le).entries.find?
      (fun e => decide (e.1 = le.locality)) = some e0 := by
    cases hf : (s.insert le).entries.find? (fun e => decide (e.1 = le.locality)) with
    | none => rw [hf] at h; simp at h
    | some e0 => exact ⟨e0, rfl⟩
  have hm := List.mem_of_find?_eq_some he0
  have hp := List.find?_some he0
  have hmem : e0 ∈ (s.insert le).entries.filter
      (fun e => decide (e.1 = le.locality)) := List.mem_filter.mpr ⟨hm, hp⟩
  exact List.length_pos_of_mem hmem

lemma countKey_le_one_aux (l : List (Option Locality × LocalityEndpoints))
    (k : Option Locality) (h : l.Pairwise (fun a b => a.1 ≠ b.1)) :
    (l.filter (fun e => decide (e.1 = k))).length ≤ 1 := by
  induction l with
  | nil => simp
  | cons a l ih =>
      rw [List.pairwise_cons] at h
      obtain ⟨ha, hl⟩ := h
      by_cases hpa : a.1 = k
      · have hnil : l.filter (fun e => decide (e.1 = k)) = [] := by
          rw [List.filter_eq_nil_iff]
          intro b hb hpb
          exact ha b hb (by simp at hpb; rw [hpa, hpb])
        simp [List.filter_cons, hpa, hnil]
      · simp only [List.filter_cons, hpa, decide_False, if_false]
        exact ih hl

lemma LocalitySet.countKey_le_one (s : LocalitySet) (k : Option Locality)
    (h : s.WF) : s.countKey k ≤ 1 :=
  countKey_le_one_aux s.entries k h.1

lemma LocalitySet.countKey_insert_eq_one (s : LocalitySet) (le : LocalityEndpoints)
    (h : s.WF) : (s.insert le).countKey le.locality = 1 :=
  le_antisymm ((s.insert le).countKey_le_one le.locality (s.insert_WF le h))
    (s.countKey_insert_pos le)

/-- C6: for every pair of `LocalityEndpoints` groups `a` and `b` with
`a.locality = b.locality`, performing `LocalitySet.insert a` then
`LocalitySet.insert b` on any (well-formed) `LocalitySet` yields exactly
one entry for that locality key, whose endpoint set equals the union of
the endpoints the key already held (empty if absent) with `a.endpoints`
and `b.endpoints`. -/
theorem localitySet_insert_same_locality_merges (s : LocalitySet)
    (a b : LocalityEndpoints) (hW : s.WF) (hab : a.locality = b.locality) :
    ((s.insert a).insert b).countKey a.locality = 1 ∧
    ((s.insert a).insert b).lookupLoc a.locality =
      some ⟨a.locality,
        ((s.lookupLoc a.locality).elim ∅ (·.endpoints)) ∪ a.endpoints ∪ b.endpoints⟩ := by
  constructor
  · rw [hab]
    exact (s.insert a).countKey_insert_eq_one b (s.insert_WF a hW)
  · rw [hab, (s.insert a).lookupLoc_insert_self b]
    have h1 : (s.insert a).lookupLoc b.locality =
        some ⟨b.locality, ((s.lookupLoc b.locality).elim ∅ (·.endpoints)) ∪ a.endpoints⟩ := by
      rw [← hab]
      exact s.lookupLoc_insert_self a
    rw [h1]
    rfl

/-- Witness for C6 at concrete inputs: the sample set already holds `epA`
under the no-locality key; inserting `{epB}` then `{epC}` under that key
leaves one entry holding `{epA, epB, epC}`. -/
theorem localitySet_insert_same_locality_merges_witness :
    ((sampleSet.insert ⟨none, {epB}⟩).insert ⟨none, {epC}⟩).countKey none = 1 ∧
    ((sampleSet.insert ⟨none, {epB}⟩).insert ⟨none, {epC}⟩).lookupLoc none =
      some ⟨none, ((sampleSet.lookupLoc none).elim ∅ (·.endpoints)) ∪ {epB} ∪ {epC}⟩ :=
  localitySet_insert_same_locality_merges sampleSet ⟨none, {epB}⟩ ⟨none, {epC}⟩
    (by decide) rfl

/-- C7: the `LocalitySet` operations `new`/`from_iter`, `insert`, `remove`
and `clear` all preserve the invariant that the set holds at most one
entry per distinct optional-`Locality` key and that every stored entry's
locality field equals the key it is stored under. -/
theorem localitySet_invariant_preserved :
    (∀ l : List LocalityEndpoints, (LocalitySet.new l).WF) ∧
    (∀ (s : LocalitySet) (le : LocalityEndpoints), s.WF → (s.insert le).WF) ∧
    (∀ (s : LocalitySet) (k : Option Locality), s.WF → (s.remove k).WF) ∧
    (∀ s : LocalitySet, s.WF → s.clear.WF) := by
  refine ⟨?_, ?_, ?_, ?_⟩
  · intro l
    exact LocalitySet.new_WF_aux l _ LocalitySet.empty_WF
  · intro s le h
    exact s.insert_WF le h
  · intro s k h
    exact s.remove_WF k h
  · intro s _
    exact LocalitySet.empty_WF

/-- Witness for C7 at concrete inputs. -/
theorem localitySet_invariant_preserved_witness :
    (LocalitySet.new [⟨none, {epA}⟩, ⟨none, {epB}⟩]).WF ∧
    (sampleSet.insert ⟨none, {epB}⟩).WF ∧
    (sampleSet.remove none).WF ∧
    sampleSet.clear.WF :=
  ⟨localitySet_invariant_preserved.1 _,
   localitySet_invariant_preserved.2.1 sampleSet _ (by decide),
   localitySet_invariant_preserved.2.2.1 sampleSet none (by decide),
   localitySet_invariant_preserved.2.2.2 sampleSet (by decide)⟩

lemma collectResults_ok_forall {α β ε : Type} (f : α → Except ε β)
    (l : List α) (ys : List β) (h : collectResults f l = .ok ys) :
    ∀ x ∈ l, ∃ y ∈ ys, f x = .ok y := by
  induction l generalizing ys with
  | nil =>
      intro x hx
      simp at hx
  | cons a l ih =>
      intro x hx
      cases hfa : f a with
      | error e => simp [collectResults, hfa] at h
      | ok y =>
          cases hcl : collectResults f l with
          | error e => simp [collectResults, hfa, hcl] at h
          | ok ys' =>
              simp only [collectResults, hfa, hcl, Except.ok.injEq] at h
              subst h
              rcases List.mem_cons.mp hx with rfl | hx'
              · exact ⟨y, List.mem_cons_self _ _, hfa⟩
              · obtain ⟨y', hy', hf'⟩ := ih ys' hcl x hx'
                exact ⟨y', List.mem_cons_of_mem _ hy', hf'⟩

lemma collectResults_ok_map {α β ε : Type} (f : α → Except ε β) (g : α → β)
    (l : List α) (h : ∀ x ∈ l, f x = .ok (g x)) :
    collectResults f l = .ok (l.map g) := by
  induction l with
  | nil => rfl
  | cons a l ih =>
      have ha := h a (List.mem_cons_self _ _)
      have hl := ih (fun x hx => h x (List.mem_cons_of_mem _ hx))
      simp [collectResults, ha, hl]

lemma collectResults_cons_error {α β ε : Type} (f : α → Except ε β)
    (a : α) (l : List α) (e : ε) (h : f a = .error e) :
    collectResults f (a :: l) = .error e := by
  simp [collectResults, h]

lemma tryFromXds_name (reg : FilterRegistry) (f : XdsFilter) (cf : Filter)
    (h : Filter.tryFromXds reg f = .ok cf) : cf.name = f.name := by
  cases hct : f.configType with
  | none =>
      simp only [Filter.tryFromXds, hct, Except.ok.injEq] at h
      rw [← h]
  | some ct =>
      cases ct with
      | typedConfig any =>
          cases hg : reg.getFactory f.name with
          | none => simp [Filter.tryFromXds, hct, hg] at h
          | some factory =>
              cases he : factory.encodeConfigToJson any with
              | error e => simp [Filter.tryFromXds, hct, hg, he] at h
              | ok j =>
                  simp only [Filter.tryFromXds, hct, hg, he, Except.ok.injEq] at h
                  rw [← h]
      | configDiscovery =>
          simp [Filter.tryFromXds, hct] at h

/-- C1 (amended): for every `Listener` whose first filter chain names a
filter with no factory in the registry, `Config::apply` returns a
validation error and leaves the state — in particular the filters slot —
unchanged.  The error is the "not found" error in particular when the
chain's filters carry no inline config and the unregistered filter comes
first; a filter using `ConfigDiscovery` instead yields a field-invalid
error (see the counterexample to the claim as stated). -/
theorem apply_listener_unknown_filter_rejected (reg : FilterRegistry)
    (st : ConfigState) (l : XdsListener)
    (h : ∃ f ∈ listenerChainFilters l,
      (reg.getFactory f.name).isNone = true) :
    (∃ e, (Config.apply reg st (.listener l)).1 = .err e) ∧
    (Config.apply reg st (.listener l)).2 = st ∧
    (∀ f0 fs0, listenerChainFilters l = f0 :: fs0 →
      (∀ f ∈ f0 :: fs0, f.configType = (none : Option XdsConfigType)) →
      (reg.getFactory f0.name).isNone = true →
      (Config.apply reg st (.listener l)).1 = .err (.notFound f0.name)) := by
  obtain ⟨f, hfmem, hfnone⟩ := h
  have hstage1map : ∀ fs0 : List XdsFilter,
      (∀ g ∈ fs0, g.configType = (none : Option XdsConfigType)) →
      collectResults (Filter.tryFromXds reg) fs0 =
        .ok (fs0.map (fun g => ⟨g.name, none⟩)) := by
    intro fs0 hall
    refine collectResults_ok_map _ _ _ ?_
    intro x hx
    unfold Filter.tryFromXds
    rw [hall x hx]
  cases hc1 : collectResults (Filter.tryFromXds reg) (listenerChainFilters l) with
  | error e =>
      refine ⟨⟨e, ?_⟩, ?_, ?_⟩
      · simp [Config.apply, hc1]
      · simp [Config.apply, hc1]
      · intro f0 fs0 hchain hall _
        rw [hchain, hstage1map (f0 :: fs0) hall] at hc1
        exact absurd hc1 (by simp)
  | ok cfilters =>
      obtain ⟨y, hymem, hy⟩ := collectResults_ok_forall _ _ _ hc1 f hfmem
      have hyname : y.name = f.name := tryFromXds_name reg f y hy
      have hynone : reg.getFactory y.name = none := by
        rw [hyname]
        exact Option.isNone_iff_eq_none.mp hfnone
      cases hc2 : FilterChain.tryCreate reg cfilters with
      | ok chain =>
          exfalso
          obtain ⟨y', _, hy'⟩ := collectResults_ok_forall _ _ _ hc2 y hymem
          rw [hynone] at hy'
          simp at hy'
      | error e =>
          refine ⟨⟨e, ?_⟩, ?_, ?_⟩
          · simp [Config.apply, hc1, hc2]
          · simp [Config.apply, hc1, hc2]
          · intro f0 fs0 hchain hall hf0
            have hc1copy := hc1
            rw [hchain, hstage1map (f0 :: fs0) hall] at hc1copy
            simp only [Except.ok.injEq] at hc1copy
            have hc2' : FilterChain.tryCreate reg cfilters =
                .error (.notFound f0.name) := by
              rw [← hc1copy, List.map_cons]
              refine collectResults_cons_error _ _ _ _ ?_
              simp only
              rw [Option.isNone_iff_eq_none.mp hf0]
            simp [Config.apply, hc1, hc2']

/-- Witness for C1 (amended) at concrete inputs: an unregistered filter
named `unknown` with no inline config is rejected with `NotFound` and the
previously stored chain survives. -/
theorem apply_listener_unknown_filter_rejected_witness :
    (Config.apply reg1 st1 (.listener unknownListener)).1 =
      .err (.notFound "unknown") ∧
    (Config.apply reg1 st1 (.listener unknownListener)).2 = st1 := by
  have h := apply_listener_unknown_filter_rejected reg1 st1 unknownListener
    (by decide)
  exact ⟨h.2.2 ⟨"unknown", none⟩ [] (by decide) (by decide) (by decide), h.2.1⟩

/-- Counterexample to C1 as stated: the first filter chain of
`cdListener` names the filter `unknown`, which has no factory in `reg1`,
yet `Config::apply` does not return a "not found" error — the filter's
`ConfigDiscovery` config is rejected first with a field-invalid error
(`src/config.rs` checks `config_type` before consulting the registry). -/
theorem apply_listener_unknown_filter_counterexample :
    (reg1.getFactory "unknown").isNone = true ∧
    (Config.apply reg1 st1 (.listener cdListener)).1.isNotFoundErr = false ∧
    (Config.apply reg1 st1 (.listener cdListener)).1 =
      .err (.fieldInvalid "config_type" "ConfigDiscovery is currently unsupported") := by
  exact ⟨rfl, rfl, rfl⟩

/-- C2: on an `Endpoint` resource whose cluster-load-assignment fails to
translate (a malformed endpoint), `Config::apply` panics — the source
calls `.unwrap()` on the translation result — instead of returning the
error to its caller as the spec requires. -/
theorem apply_endpoint_malformed_panics :
    Cluster.tryFromCLA malformedCLA =
      .error (.malformedEndpoint "invalid endpoint address") ∧
    (Config.apply reg1 st0 (.endpoint malformedCLA)).1 = .panicked ∧
    (Config.apply reg1 st0 (.endpoint malformedCLA)).1 ≠ .err
      (.malformedEndpoint "invalid endpoint address") := by
  exact ⟨rfl, rfl, by decide⟩

/-- C3: for every `Endpoint` resource translating to a cluster with zero
endpoints, `Config::apply` succeeds and leaves the state — in particular
the clusters slot — unchanged. -/
theorem apply_endpoint_empty_cluster_ignored (reg : FilterRegistry)
    (st : ConfigState) (cla : ClusterLoadAssignment) (c : Cluster)
    (h1 : Cluster.tryFromCLA cla = .ok c) (h2 : c.endpointsCount = 0) :
    Config.apply reg st (.endpoint cla) = (.ok, st) := by
  simp [Config.apply, h1, Config.applyCluster, h2]

/-- Witness for C3 at a concrete input: a load assignment with no
endpoints translates to an endpoint-free cluster and is ignored. -/
theorem apply_endpoint_empty_cluster_ignored_witness :
    Cluster.tryFromCLA emptyCLA = .ok ⟨"cluster-a", LocalitySet.new []⟩ ∧
    Cluster.endpointsCount ⟨"cluster-a", LocalitySet.new []⟩ = 0 ∧
    Config.apply reg1 st1 (.endpoint emptyCLA) = (.ok, st1) :=
  ⟨rfl, rfl, apply_endpoint_empty_cluster_ignored reg1 st1 emptyCLA
    ⟨"cluster-a", LocalitySet.new []⟩ rfl rfl⟩

/-- C10: for every `Listener` resource whose `filter_chains` list is
empty, `Config::apply` succeeds and stores an empty `FilterChain` into
the filters slot, replacing whatever chain was previously stored. -/
theorem apply_listener_no_chains_stores_empty (reg : FilterRegistry)
    (st : ConfigState) (l : XdsListener) (h : l.filterChains = []) :
    Config.apply reg st (.listener l) = (.ok, { st with filters := [] }) := by
  simp [Config.apply, listenerChainFilters, h, collectResults, FilterChain.tryCreate]

/-- Witness for C10 at a concrete input: applying a listener with no
filter chains to a state whose filter slot holds a non-empty chain clears
the slot. -/
theorem apply_listener_no_chains_stores_empty_witness :
    Config.apply reg1 st1 (.listener ⟨[]⟩) = (.ok, { st1 with filters := [] }) ∧
    st1.filters ≠ [] :=
  ⟨apply_listener_no_chains_stores_empty reg1 st1 ⟨[]⟩ rfl, by decide⟩

lemma run_clusters_eq (p : Proxy) (m : ClusterMap) (connectOk bindOk : Bool) :
    (p.run m connectOk bindOk).2.1 = applyToTargets p m := by
  unfold Proxy.run
  dsimp only
  split
  · rfl
  · split
    · rfl
    · split <;> rfl

/-- C4: `Proxy::run` returns the configuration error — and does so before
the session map is created or any worker is spawned (the event trace is
empty) — exactly when, after applying the command-line targets, the
clusters hold zero endpoints and the management-server list is empty. -/
theorem proxy_run_fails_fast_iff (p : Proxy) (m : ClusterMap)
    (connectOk bindOk : Bool) :
    ((p.run m connectOk bindOk).1 = .error .config ↔
      ((applyToTargets p m).endpointsCount = 0 ∧ p.managementServer = [])) ∧
    ((p.run m connectOk bindOk).1 = .error .config →
      (p.run m connectOk bindOk).2.2 = []) := by
  unfold Proxy.run
  dsimp only
  by_cases hc : (applyToTargets p m).endpointsCount = 0 ∧ p.managementServer.isEmpty
  · rw [if_pos hc]
    refine ⟨⟨fun _ => ?_, fun _ => rfl⟩, fun _ => rfl⟩
    exact ⟨hc.1, List.isEmpty_iff.mp hc.2⟩
  · rw [if_neg hc]
    have hc' : ¬ ((applyToTargets p m).endpointsCount = 0 ∧ p.managementServer = []) := by
      intro h
      exact hc ⟨h.1, List.isEmpty_iff.mpr h.2⟩
    split
    · exact ⟨⟨fun h => by simp at h, fun h => absurd h hc'⟩, fun h => by simp at h⟩
    · split
      · exact ⟨⟨fun h => by simp at h, fun h => absurd h hc'⟩, fun h => by simp at h⟩
      · exact ⟨⟨fun h => by simp at h, fun h => absurd h hc'⟩, fun h => by simp at h⟩

/-- Witness for C4 at a concrete input: no targets, no management server
and an empty cluster map make `run` fail with the configuration error and
an empty event trace (no session map, no workers). -/
theorem proxy_run_fails_fast_iff_witness :
    (Proxy.run ⟨[], 7777, []⟩ ClusterMap.empty true true).1 = .error .config ∧
    (Proxy.run ⟨[], 7777, []⟩ ClusterMap.empty true true).2.2 = [] := by
  have h := proxy_run_fails_fast_iff ⟨[], 7777, []⟩ ClusterMap.empty true true
  have h1 := h.1.mpr (by decide)
  exact ⟨h1, h.2 h1⟩

/-- C8: for every non-empty list of command-line upstream targets,
`Proxy::run` replaces the default cluster's localities with the locality
set holding exactly one no-locality group whose endpoint set is the
endpoints formed from those addresses, discarding whatever localities the
default cluster held before. -/
theorem proxy_run_to_replaces_default_localities (p : Proxy) (m : ClusterMap)
    (connectOk bindOk : Bool) (h : p.toAddresses ≠ []) :
    (p.run m connectOk bindOk).2.1.defaultCluster.localities =
      LocalitySet.new [LocalityEndpoints.ofAddrs p.toAddresses] ∧
    LocalitySet.new [LocalityEndpoints.ofAddrs p.toAddresses] =
      ⟨[(none, ⟨none, (p.toAddresses.map Endpoint.ofAddr).toFinset⟩)]⟩ := by
  constructor
  · rw [run_clusters_eq]
    have hne : ¬ (p.toAddresses.isEmpty = true) := by
      cases hta : p.toAddresses with
      | nil => exact absurd hta h
      | cons a as => simp [hta]
    unfold applyToTargets
    rw [if_neg hne]
    rfl
  · rfl

/-- Witness for C8 at a concrete input: two targets replace a default
cluster that previously held a located endpoint group. -/
theorem proxy_run_to_replaces_default_localities_witness :
    (Proxy.run ⟨[], 7777, ["10.0.0.5:85", "10.0.0.6:86"]⟩ mPrev true
        true).2.1.defaultCluster.localities =
      LocalitySet.new [LocalityEndpoints.ofAddrs ["10.0.0.5:85", "10.0.0.6:86"]] ∧
    LocalitySet.new [LocalityEndpoints.ofAddrs ["10.0.0.5:85", "10.0.0.6:86"]] =
      ⟨[(none, ⟨none, (["10.0.0.5:85", "10.0.0.6:86"].map Endpoint.ofAddr).toFinset⟩)]⟩ :=
  proxy_run_to_replaces_default_localities ⟨[], 7777, ["10.0.0.5:85", "10.0.0.6:86"]⟩
    mPrev true true (by decide)

/-- Counterexample to C5 as stated: with two workers, `run_recv_from`
hands the two workers sockets with distinct allocation ids — the loop
body binds a fresh socket per worker — so the workers do not share one
single listener socket. -/
theorem run_recv_from_shared_socket_counterexample :
    ∃ w1 ∈ runRecvFrom ⟨[], 7777, []⟩ 0 0 0 2,
    ∃ w2 ∈ runRecvFrom ⟨[], 7777, []⟩ 0 0 0 2,
    w1.socketId ≠ w2.socketId := by decide

/-- C5 (amended): every spawned downstream worker receives the shared
`Config`, the shared `SessionMap` and a shutdown receiver, together with
its own listener socket, freshly bound to the configured port for that
worker; the workers' sockets are pairwise distinct rather than one shared
socket. -/
theorem run_recv_from_worker_resources (p : Proxy)
    (configRef sessionsRef shutdownRef numWorkers : Nat)
    (w : DownstreamReceiveWorkerConfig)
    (hw : w ∈ runRecvFrom p configRef sessionsRef shutdownRef numWorkers) :
    w.configRef = configRef ∧ w.sessionsRef = sessionsRef ∧
    w.shutdownRef = shutdownRef ∧ w.socketPort = p.port ∧
    ((runRecvFrom p configRef sessionsRef shutdownRef numWorkers).map
      (·.socketId)).Nodup := by
  obtain ⟨i, _, rfl⟩ := List.mem_map.mp hw
  refine ⟨rfl, rfl, rfl, rfl, ?_⟩
  have hmap : (runRecvFrom p configRef sessionsRef shutdownRef numWorkers).map
      (·.socketId) = List.range numWorkers := by
    simp only [runRecvFrom, List.map_map]
    have hcomp : ((fun x : DownstreamReceiveWorkerConfig => x.socketId) ∘
        (fun i => (⟨i, i, p.port, configRef, sessionsRef, shutdownRef⟩ :
          DownstreamReceiveWorkerConfig))) = id := rfl
    rw [hcomp, List.map_id]
  rw [hmap]
  exact List.nodup_range numWorkers

lemma collectResults_error_of_mem {α β ε : Type} (f : α → Except ε β)
    (l : List α) (x : α) (hx : x ∈ l) (h : ∃ e, f x = .error e) :
    ∃ e, collectResults f l = .error e := by
  induction l with
  | nil => simp at hx
  | cons a rest ih =>
      cases hfa : f a with
      | error e => exact ⟨e, by simp [collectResults, hfa]⟩
      | ok y =>
          rcases List.mem_cons.mp hx with rfl | hmem
          · obtain ⟨e, he⟩ := h
            rw [hfa] at he
            exact absurd he (by simp)
          · obtain ⟨e, he⟩ := ih hmem
            exact ⟨e, by simp [collectResults, hfa, he]⟩

lemma readFilterFields_unknown (fs : List (String × JVal))
    (nameAcc : Option String) (cfgAcc : Option (Option JVal))
    (h : ∃ kv ∈ fs, kv.1 ∉ filterSchema) :
    ∃ e, readFilterFields fs nameAcc cfgAcc = .error e := by
  induction fs generalizing nameAcc cfgAcc with
  | nil =>
      obtain ⟨kv, hkv, _⟩ := h
      simp at hkv
  | cons head rest ih =>
      obtain ⟨k, v⟩ := head
      by_cases hk1 : k = "name"
      · subst hk1
        have h' : ∃ kv ∈ rest, kv.1 ∉ filterSchema := by
          obtain ⟨kv, hkv, hns⟩ := h
          rcases List.mem_cons.mp hkv with rfl | hmem
          · exact absurd (by simp [filterSchema]) hns
          · exact ⟨kv, hmem, hns⟩
        cases nameAcc with
        | some s => exact ⟨"duplicate field name", by simp [readFilterFields]⟩
        | none =>
            cases v with
            | str s => simpa [readFilterFields] using ih (some s) cfgAcc h'
            | null => exact ⟨"invalid type for field name", by simp [readFilterFields]⟩
            | bool b => exact ⟨"invalid type for field name", by simp [readFilterFields]⟩
            | num n => exact ⟨"invalid type for field name", by simp [readFilterFields]⟩
            | arr xs => exact ⟨"invalid type for field name", by simp [readFilterFields]⟩
            | obj ofs => exact ⟨"invalid type for field name", by simp [readFilterFields]⟩
      · by_cases hk2 : k = "config"
        · subst hk2
          have h' : ∃ kv ∈ rest, kv.1 ∉ filterSchema := by
            obtain ⟨kv, hkv, hns⟩ := h
            rcases List.mem_cons.mp hkv with rfl | hmem
            · exact absurd (by simp [filterSchema]) hns
            · exact ⟨kv, hmem, hns⟩
          cases cfgAcc with
          | some c => exact ⟨"duplicate field config", by simp [readFilterFields]⟩
          | none => simpa [readFilterFields] using ih nameAcc (some (some v)) h'
        · exact ⟨"unknown field " ++ k, by simp [readFilterFields, hk1, hk2]⟩

lemma deserializeFilterList_unknown (es : List JVal) (efs : List (String × JVal))
    (hmem : JVal.obj efs ∈ es) (h : ∃ kv ∈ efs, kv.1 ∉ filterSchema) :
    ∃ e, deserializeFilterList (JVal.arr es) = .error e := by
  have hf : ∃ e, FilterFile.deserialize (JVal.obj efs) = .error e := by
    simpa [FilterFile.deserialize] using readFilterFields_unknown efs none none h
  simpa [deserializeFilterList] using
    collectResults_error_of_mem FilterFile.deserialize es _ hmem hf

lemma readConfigFields_error (fs : List (String × JVal))
    (clAcc : Option ClusterMap) (flAcc : Option (List FilterFile))
    (idAcc : Option String) (vAcc : Option Version)
    (h : (∃ kv ∈ fs, kv.1 ∉ topLevelSchema) ∨
      (∃ v, ("filters", v) ∈ fs ∧ ∃ e, deserializeFilterList v = .error e)) :
    ∃ e, readConfigFields fs clAcc flAcc idAcc vAcc = .error e := by
  induction fs generalizing clAcc flAcc idAcc vAcc with
  | nil =>
      rcases h with ⟨kv, hkv, _⟩ | ⟨v, hv, _⟩
      · simp at hkv
      · simp at hv
  | cons head rest ih =>
      obtain ⟨k, v⟩ := head
      by_cases hk1 : k = "clusters"
      · subst hk1
        have h' : (∃ kv ∈ rest, kv.1 ∉ topLevelSchema) ∨
            (∃ w, ("filters", w) ∈ rest ∧ ∃ e, deserializeFilterList w = .error e) := by
          rcases h with ⟨kv, hkv, hns⟩ | ⟨w, hw, he⟩
          · rcases List.mem_cons.mp hkv with rfl | hmem
            · exact absurd (by simp [topLevelSchema]) hns
            · exact Or.inl ⟨kv, hmem, hns⟩
          · rcases List.mem_cons.mp hw with heq | hmem
            · exact absurd (congrArg Prod.fst heq) (by simp)
            · exact Or.inr ⟨w, hmem, he⟩
        cases clAcc with
        | some c => exact ⟨"duplicate field clusters", by simp [readConfigFields]⟩
        | none =>
            cases hcd : ClusterMapFile.deserialize v with
            | error e => exact ⟨e, by simp [readConfigFields, hcd]⟩
            | ok c => simpa [readConfigFields, hcd] using ih (some c) flAcc idAcc vAcc h'
      · by_cases hk2 : k = "filters"
        · subst hk2
          cases flAcc with
          | some l => exact ⟨"duplicate field filters", by simp [readConfigFields]⟩
          | none =>
              cases hdl : deserializeFilterList v with
              | error e => exact ⟨e, by simp [readConfigFields, hdl]⟩
              | ok l =>
                  have h' : (∃ kv ∈ rest, kv.1 ∉ topLevelSchema) ∨
                      (∃ w, ("filters", w) ∈ rest ∧
                        ∃ e, deserializeFilterList w = .error e) := by
                    rcases h with ⟨kv, hkv, hns⟩ | ⟨w, hw, he⟩
                    · rcases List.mem_cons.mp hkv with rfl | hmem
                      · exact absurd (by simp [topLevelSchema]) hns
                      · exact Or.inl ⟨kv, hmem, hns⟩
                    · rcases List.mem_cons.mp hw with heq | hmem
                      · obtain ⟨e, he'⟩ := he
                        have hwv : w = v := by
                          have := congrArg Prod.snd heq
                          simpa using this
                        rw [hwv, hdl] at he'
                        exact absurd he' (by simp)
                      · exact Or.inr ⟨w, hmem, he⟩
                  simpa [readConfigFields, hdl] using ih clAcc (some l) idAcc vAcc h'
        · by_cases hk3 : k = "id"
          · subst hk3
            have h' : (∃ kv ∈ rest, kv.1 ∉ topLevelSchema) ∨
                (∃ w, ("filters", w) ∈ rest ∧ ∃ e, deserializeFilterList w = .error e) := by
              rcases h with ⟨kv, hkv, hns⟩ | ⟨w, hw, he⟩
              · rcases List.mem_cons.mp hkv with rfl | hmem
                · exact absurd (by simp [topLevelSchema]) hns
                · exact Or.inl ⟨kv, hmem, hns⟩
              · rcases List.mem_cons.mp hw with heq | hmem
                · exact absurd (congrArg Prod.fst heq) (by simp)
                · exact Or.inr ⟨w, hmem, he⟩
            cases idAcc with
            | some s => exact ⟨"duplicate field id", by simp [readConfigFields]⟩
            | none =>
                cases v with
                | str s => simpa [readConfigFields] using ih clAcc flAcc (some s) vAcc h'
                | null => exact ⟨"invalid type for field id", by simp [readConfigFields]⟩
                | bool b => exact ⟨"invalid type for field id", by simp [readConfigFields]⟩
                | num n => exact ⟨"invalid type for field id", by simp [readConfigFields]⟩
                | arr xs => exact ⟨"invalid type for field id", by simp [readConfigFields]⟩
                | obj ofs => exact ⟨"invalid type for field id", by simp [readConfigFields]⟩
          · by_cases hk4 : k = "version"
            · subst hk4
              have h' : (∃ kv ∈ rest, kv.1 ∉ topLevelSchema) ∨
                  (∃ w, ("filters", w) ∈ rest ∧
                    ∃ e, deserializeFilterList w = .error e) := by
                rcases h with ⟨kv, hkv, hns⟩ | ⟨w, hw, he⟩
                · rcases List.mem_cons.mp hkv with rfl | hmem
                  · exact absurd (by simp [topLevelSchema]) hns
                  · exact Or.inl ⟨kv, hmem, hns⟩
                · rcases List.mem_cons.mp hw with heq | hmem
                  · exact absurd (congrArg Prod.fst heq) (by simp)
                  · exact Or.inr ⟨w, hmem, he⟩
              cases vAcc with
              | some ver => exact ⟨"duplicate field version", by simp [readConfigFields]⟩
              | none =>
                  cases hvd : Version.deserialize v with
                  | error e => exact ⟨e, by simp [readConfigFields, hvd]⟩
                  | ok ver =>
                      simpa [readConfigFields, hvd] using
                        ih clAcc flAcc idAcc (some ver) h'
            · exact ⟨"unknown field " ++ k,
                by simp [readConfigFields, hk1, hk2, hk3, hk4]⟩

/-- C9: for every configuration-file input whose top-level mapping holds
a field name outside `Config`'s declared schema, or whose `filters` entry
holds a filter object with a field outside `config::Filter`'s declared
schema, `Config::from_reader` returns a deserialization error rather than
ignoring the field. -/
theorem config_from_reader_rejects_unknown_fields (fs : List (String × JVal))
    (h : (∃ kv ∈ fs, kv.1 ∉ topLevelSchema) ∨
      (∃ v es efs, ("filters", v) ∈ fs ∧ v = JVal.arr es ∧ JVal.obj efs ∈ es ∧
        ∃ kv ∈ efs, kv.1 ∉ filterSchema)) :
    ∃ e, Config.fromReader (JVal.obj fs) = .error e := by
  have h' : (∃ kv ∈ fs, kv.1 ∉ topLevelSchema) ∨
      (∃ v, ("filters", v) ∈ fs ∧ ∃ e, deserializeFilterList v = .error e) := by
    rcases h with h1 | ⟨v, es, efs, hv, rfl, hobj, hkv⟩
    · exact Or.inl h1
    · exact Or.inr ⟨_, hv, deserializeFilterList_unknown es efs hobj hkv⟩
  simpa [Config.fromReader] using readConfigFields_error fs none none none none h'

/-- Witness for C9 at concrete inputs: an unknown top-level field `port`
and an unknown field `foo` inside a filter entry are each rejected. -/
theorem config_from_reader_rejects_unknown_fields_witness :
    (∃ e, Config.fromReader (JVal.obj [("port", JVal.num 7000)]) = .error e) ∧
    (∃ e, Config.fromReader (JVal.obj [("filters",
      JVal.arr [JVal.obj [("name", JVal.str "x"), ("foo", JVal.null)]])]) =
        .error e) :=
  ⟨config_from_reader_rejects_unknown_fields _
    (Or.inl ⟨("port", JVal.num 7000), by simp, by decide⟩),
   config_from_reader_rejects_unknown_fields _
    (Or.inr ⟨JVal.arr [JVal.obj [("name", JVal.str "x"), ("foo", JVal.null)]],
      [JVal.obj [("name", JVal.str "x"), ("foo", JVal.null)]],
      [("name", JVal.str "x"), ("foo", JVal.null)],
      by simp, rfl, by simp, ⟨("foo", JVal.null), by simp, by decide⟩⟩)⟩

/-- Witness for C5 (amended) at a concrete input. -/
theorem run_recv_from_worker_resources_witness :
    (⟨0, 0, 7777, 1, 2, 3⟩ : DownstreamReceiveWorkerConfig).configRef = 1 ∧
    (⟨0, 0, 7777, 1, 2, 3⟩ : DownstreamReceiveWorkerConfig).sessionsRef = 2 ∧
    (⟨0, 0, 7777, 1, 2, 3⟩ : DownstreamReceiveWorkerConfig).shutdownRef = 3 ∧
    (⟨0, 0, 7777, 1, 2, 3⟩ : DownstreamReceiveWorkerConfig).socketPort =
      (⟨[], 7777, []⟩ : Proxy).port ∧
    ((runRecvFrom ⟨[], 7777, []⟩ 1 2 3 2).map (·.socketId)).Nodup :=
  run_recv_from_worker_resources ⟨[], 7777, []⟩ 1 2 3 2 ⟨0, 0, 7777, 1, 2, 3⟩
    (by decide)

end Quilkin
